import Mathlib

/-!
Verification of `model_zoo/official/recommend/deepfm/train.py`.

The script is embedded as a pure function from its inputs (parsed CLI flags,
environment variables, and the values returned by external framework calls)
to a trace of observable effects plus a final outcome.  Machine integers are
modelled as `Int`; Python exceptions as an explicit error outcome; `exit()`
as an `exited` outcome carrying the process exit status (Python `exit()`
with no argument raises `SystemExit(None)`, which terminates the process
with status 0).
-/

namespace DeepFM

/-- Python exceptions that the embedded code can raise:
`int(None)` raises `TypeError`, `int("abc")` raises `ValueError`. -/
inductive PyError where
  | typeError
  | valueError
deriving DecidableEq, Repr

/-- Final outcome of a run of the script: normal completion, a process exit
via `exit(code)` (Python bare `exit()` gives status 0), or an uncaught
Python exception. -/
inductive Outcome where
  | completed
  | exited (code : Int)
  | pyError (e : PyError)
deriving DecidableEq, Repr

/-- The command line as given: for each recognized flag, `some v` when the
flag is present with value `v`, `none` when absent.  Embeds the six
`parser.add_argument` calls of train.py lines 35-40. -/
structure Cmdline where
  dataset_path : Option String
  ckpt_path : Option String
  eval_file_name : Option String
  loss_file_name : Option String
  do_eval : Option String
  device_target : Option String
deriving DecidableEq, Repr

/-- The parsed argument object `args_opt` produced by `parse_known_args`. -/
structure Args where
  dataset_path : Option String
  ckpt_path : Option String
  eval_file_name : String
  loss_file_name : String
  do_eval : Bool
  device_target : String
deriving DecidableEq, Repr

/-- The three environment variables the script reads; `none` means unset. -/
structure Env where
  RANK_SIZE : Option String
  DEVICE_ID : Option String
  RANK_ID : Option String
deriving DecidableEq, Repr

/-- Modelled from the spec: `DataConfig` comes from `src.config`, which is
not part of this repository snapshot; train.py reads only its
`data_format` field, so the model carries exactly that field, with its
constructed value left abstract. -/
structure DataConfig where
  data_format : Int
deriving DecidableEq, Repr

/-- Modelled from the spec: `ModelConfig` comes from `src.config`, which is
not part of this repository snapshot; train.py reads none of its fields
(it passes the class itself to `ModelBuilder`), so the model is a unit
structure. -/
structure ModelConfig where
deriving DecidableEq, Repr

/-- Modelled from the spec: `TrainConfig` comes from `src.config`, which is
not part of this repository snapshot; the model carries exactly the fields
train.py reads or writes, with the constructed values left abstract.
`ckpt_file_name_pfx` embeds the source field `ckpt_file_name_prefix`. -/
structure TrainConfig where
  batch_size : Int
  train_epochs : Int
  save_checkpoint : Bool
  ckpt_file_name_pfx : String
  save_checkpoint_steps : Int
  keep_checkpoint_max : Int
deriving DecidableEq, Repr

/-- Values returned by external framework calls during the run:
`get_rank()`, `get_group_size()`, and `ds_train.get_dataset_size()`. -/
structure Framework where
  rank : Int
  group_size : Int
  steps_size : Int
deriving DecidableEq, Repr

/-- Python `bool(s)` on a string: false exactly for the empty string.
This is what `argparse` applies to the value of a flag declared with
`type=bool`. -/
def pyBool (s : String) : Bool :=
  s ≠ ""

/-- Auxiliary decimal-digit accumulator for `pyInt`. -/
def parseDigitsAux : List Char → Nat → Option Nat
  | [], acc => some acc
  | c :: cs, acc =>
    if c.isDigit then parseDigitsAux cs (acc * 10 + (c.toNat - 48)) else none

/-- Python `int(s)` on a string: an optional sign followed by decimal
digits; anything else raises `ValueError`, modelled as `none`. -/
def pyInt (s : String) : Option Int :=
  match s.toList with
  | [] => none
  | '-' :: cs =>
    if cs = [] then none else (parseDigitsAux cs 0).map (fun n => -(n : Int))
  | '+' :: cs =>
    if cs = [] then none else (parseDigitsAux cs 0).map (fun n => (n : Int))
  | cs => (parseDigitsAux cs 0).map (fun n => (n : Int))

/-- `int(os.getenv(v))` / `int(os.environ.get(v))`: `int(None)` raises
`TypeError`; an unparseable string raises `ValueError`. -/
def intOfOpt : Option String → Except PyError Int
  | none => Except.error PyError.typeError
  | some s =>
    match pyInt s with
    | some n => Except.ok n
    | none => Except.error PyError.valueError

/-- `rank_size = int(os.environ.get("RANK_SIZE", 1))` (train.py line 42):
when `RANK_SIZE` is unset the default `1` is already an int. -/
def rankSizeOfEnv (env : Env) : Except PyError Int :=
  match env.RANK_SIZE with
  | none => Except.ok 1
  | some s =>
    match pyInt s with
    | some n => Except.ok n
    | none => Except.error PyError.valueError

/-- `args_opt, _ = parser.parse_known_args()` (train.py lines 34-41):
each absent flag takes its declared default; `--do_eval` is declared with
`type=bool`, so a present value goes through Python `bool`. -/
def parse_known_args (c : Cmdline) : Args :=
  { dataset_path := c.dataset_path
  , ckpt_path := c.ckpt_path
  , eval_file_name := c.eval_file_name.getD "./auc.log"
  , loss_file_name := c.loss_file_name.getD "./loss.log"
  , do_eval := match c.do_eval with
               | none => true
               | some s => pyBool s
  , device_target := c.device_target.getD "Ascend" }

/-- Callback objects appended to `callback_list` (train.py lines 94-118). -/
inductive Callback where
  | timeMonitor (data_size : Int)
  | lossCallBack (loss_file_path : String)
  | modelCheckpoint (ckptPfx : String) (directory : Option String)
      (save_checkpoint_steps : Int) (keep_checkpoint_max : Int)
  | evalCallBack (eval_file_path : String)
deriving DecidableEq, Repr

/-- Observable effects of the script, in program order.  `commInit`
embeds `init()` / `init("nccl")`; `trainModel` embeds the final
`model.train(...)` call with its callback list. -/
inductive Effect where
  | seedRandom (n : Int)
  | seedNumpy (n : Int)
  | seedDe (n : Int)
  | constructDataConfig
  | constructModelConfig
  | constructTrainConfig
  | setContext (mode : String) (device_target : String) (device_id : Option Int)
  | resetAutoParallelContext
  | setAutoParallelContext (parallel_mode : String) (mirror_mean : Bool)
      (device_num : Option Int)
  | commInit (backend : Option String)
  | printMsg (msg : String)
  | createTrainDataset (path : Option String) (epochs : Int) (batch_size : Int)
      (data_format : Int) (rank_size : Option Int) (rank_id : Option Int)
  | createEvalDataset (path : Option String) (epochs : Int) (batch_size : Int)
      (data_format : Int)
  | buildModel
  | trainModel (epochs : Int) (callbacks : List Callback)
deriving DecidableEq, Repr

/-- The message of `print("Unsupported device_target ", t)`: Python `print`
joins its arguments with a single space. -/
def unsupportedMsg (t : String) : String :=
  "Unsupported device_target " ++ " " ++ t

/-- Result of the device-selection branch (train.py lines 53-76): an
uncaught exception, a process exit, or success carrying the branch trace
and the values of `rank_size` and `rank_id` after the branch (`none`
embeds Python `None`). -/
inductive SetupResult where
  | err (tr : List Effect) (e : PyError)
  | exitedWith (tr : List Effect) (code : Int)
  | ok (tr : List Effect) (rank_size_opt : Option Int) (rank_id_opt : Option Int)
deriving DecidableEq, Repr

/-- The `if rank_size > 1: ... else: ...` device-selection block
(train.py lines 53-76), with `rank_size` the module-level value. -/
def setupBranch (args : Args) (env : Env) (fw : Framework) (rank_size : Int) :
    SetupResult :=
  if rank_size > 1 then
    if args.device_target = "Ascend" then
      match intOfOpt env.DEVICE_ID with
      | Except.error e => SetupResult.err [] e
      | Except.ok device_id =>
        let tr := [Effect.setContext "GRAPH_MODE" args.device_target (some device_id),
                   Effect.resetAutoParallelContext,
                   Effect.setAutoParallelContext "DATA_PARALLEL" true none,
                   Effect.commInit none]
        match intOfOpt env.RANK_ID with
        | Except.error e => SetupResult.err tr e
        | Except.ok rank_id => SetupResult.ok tr (some rank_size) (some rank_id)
    else if args.device_target = "GPU" then
      SetupResult.ok
        [Effect.commInit (some "nccl"),
         Effect.setContext "GRAPH_MODE" args.device_target none,
         Effect.resetAutoParallelContext,
         Effect.setAutoParallelContext "DATA_PARALLEL" true (some fw.group_size)]
        (some rank_size) (some fw.rank)
    else
      SetupResult.exitedWith [Effect.printMsg (unsupportedMsg args.device_target)] 0
  else
    match intOfOpt env.DEVICE_ID with
    | Except.error e => SetupResult.err [] e
    | Except.ok device_id =>
      SetupResult.ok
        [Effect.setContext "GRAPH_MODE" args.device_target (some device_id)]
        none none

/-- Python truthiness of the `rank_size` variable at line 98
(`if rank_size:`): `None` is falsy, an int is truthy unless zero. -/
def pyTruthy : Option Int → Bool
  | none => false
  | some n => n != 0

/-- The state of `train_config` after the checkpoint block
(train.py lines 96-98): inside `if train_config.save_checkpoint:`, when
`rank_size` is truthy, `ckpt_file_name_prefix` gets `str(get_rank())`
appended; no other field is ever assigned. -/
def tcAfter (fw : Framework) (tc : TrainConfig) (rs : Option Int) : TrainConfig :=
  if tc.save_checkpoint then
    if pyTruthy rs then
      { tc with ckpt_file_name_pfx := tc.ckpt_file_name_pfx ++ toString fw.rank }
    else tc
  else tc

/-- The `callback_list` passed to `model.train` (train.py lines 93-118):
time and loss callbacks always; a `ModelCheckpoint` when
`train_config.save_checkpoint`, whose cadence is the dataset size for GPU
and `train_config.save_checkpoint_steps` otherwise; an `EvalCallBack`
when `args_opt.do_eval` is truthy. -/
def mainCallbacks (args : Args) (fw : Framework) (tc : TrainConfig)
    (rs : Option Int) : List Callback :=
  [Callback.timeMonitor fw.steps_size, Callback.lossCallBack args.loss_file_name]
    ++ (if tc.save_checkpoint then
          [Callback.modelCheckpoint (tcAfter fw tc rs).ckpt_file_name_pfx
             args.ckpt_path
             (if args.device_target = "GPU" then fw.steps_size
              else tc.save_checkpoint_steps)
             tc.keep_checkpoint_max]
        else [])
    ++ (if args.do_eval then [Callback.evalCallBack args.eval_file_name] else [])

/-- The effect trace of the straight-line tail of `__main__`
(train.py lines 78-119): training-dataset creation, model construction,
eval-dataset creation when `do_eval`, and the training call. -/
def mainTrace (args : Args) (fw : Framework) (dc : DataConfig) (tc : TrainConfig)
    (rs ri : Option Int) : List Effect :=
  [Effect.createTrainDataset args.dataset_path 1 tc.batch_size dc.data_format rs ri,
   Effect.buildModel]
    ++ (if args.do_eval then
          [Effect.createEvalDataset args.dataset_path 1 tc.batch_size dc.data_format]
        else [])
    ++ [Effect.trainModel tc.train_epochs (mainCallbacks args fw tc rs)]

/-- The final value of each config object together with the run trace,
outcome, and the callbacks registered with `model.train`. -/
structure RunResult where
  trace : List Effect
  outcome : Outcome
  callbacks : List Callback
  finalDC : DataConfig
  finalMC : ModelConfig
  finalTC : TrainConfig
deriving DecidableEq, Repr

/-- Module-level prelude trace (seeds, lines 44-46) followed by the three
config constructions at the top of `__main__` (lines 49-51). -/
def preTrace : List Effect :=
  [Effect.seedRandom 1, Effect.seedNumpy 1, Effect.seedDe 1,
   Effect.constructDataConfig, Effect.constructModelConfig,
   Effect.constructTrainConfig]

/-- Whole-script semantics of train.py: argument parsing and the
`RANK_SIZE` read happen at import time before the seed calls; a
`RANK_SIZE` value that `int()` rejects aborts the run before anything
else.  `dc`, `mc`, `tc` are the instances the three config constructors
return (their field values live in `src.config`, outside this snapshot). -/
def runScript (c : Cmdline) (env : Env) (fw : Framework) (dc : DataConfig)
    (mc : ModelConfig) (tc : TrainConfig) : RunResult :=
  let args := parse_known_args c
  match rankSizeOfEnv env with
  | Except.error e =>
    { trace := [], outcome := Outcome.pyError e, callbacks := []
    , finalDC := dc, finalMC := mc, finalTC := tc }
  | Except.ok rank_size =>
    match setupBranch args env fw rank_size with
    | SetupResult.err tr e =>
      { trace := preTrace ++ tr, outcome := Outcome.pyError e, callbacks := []
      , finalDC := dc, finalMC := mc, finalTC := tc }
    | SetupResult.exitedWith tr code =>
      { trace := preTrace ++ tr, outcome := Outcome.exited code, callbacks := []
      , finalDC := dc, finalMC := mc, finalTC := tc }
    | SetupResult.ok tr rs ri =>
      { trace := preTrace ++ tr ++ mainTrace args fw dc tc rs ri
      , outcome := Outcome.completed
      , callbacks := mainCallbacks args fw tc rs
      , finalDC := dc, finalMC := mc, finalTC := tcAfter fw tc rs }

/-- Recognizer for a `set_auto_parallel_context` effect in
`DATA_PARALLEL` mode with `mirror_mean=True`. -/
def isDataParallelMirror : Effect → Bool
  | Effect.setAutoParallelContext pm mm _ => pm == "DATA_PARALLEL" && mm
  | _ => false

/-- Recognizer for any `set_auto_parallel_context` effect. -/
def isAutoParallelSet : Effect → Bool
  | Effect.setAutoParallelContext _ _ _ => true
  | _ => false

/-- Recognizer for a `set_context` effect (device/context initialization). -/
def isSetContext : Effect → Bool
  | Effect.setContext _ _ _ => true
  | _ => false

/-- Recognizer for the training-dataset creation effect. -/
def isCreateTrainDataset : Effect → Bool
  | Effect.createTrainDataset _ _ _ _ _ _ => true
  | _ => false

/-- Recognizer for the evaluation-dataset creation effect. -/
def isCreateEvalDataset : Effect → Bool
  | Effect.createEvalDataset _ _ _ _ => true
  | _ => false

/-- Recognizer for the `model.train` effect. -/
def isTrainModel : Effect → Bool
  | Effect.trainModel _ _ => true
  | _ => false

/-- The `(rank_size, rank_id)` pair passed to training-dataset creation,
when the effect is one. -/
def createTrainRanks : Effect → Option (Option Int × Option Int)
  | Effect.createTrainDataset _ _ _ _ rs ri => some (rs, ri)
  | _ => none

/-- `Except.ok` recognizer for embedded Python `int()` results. -/
def exceptOk : Except PyError Int → Bool
  | Except.ok _ => true
  | Except.error _ => false

/-- A command line with every recognized flag absent. -/
def cmdNone : Cmdline := ⟨none, none, none, none, none, none⟩

/-- A command line passing only `--device_target TPU`. -/
def cmdTPU : Cmdline := { cmdNone with device_target := some "TPU" }

/-- A command line passing only `--device_target CPU`. -/
def cmdCPU : Cmdline := { cmdNone with device_target := some "CPU" }

/-- A command line passing only `--device_target GPU`. -/
def cmdGPU : Cmdline := { cmdNone with device_target := some "GPU" }

/-- A single-device environment: `RANK_SIZE` unset, `DEVICE_ID=0`. -/
def envSingle : Env := ⟨none, some "0", none⟩

/-- A two-device environment with `DEVICE_ID` and `RANK_ID` both set. -/
def envMulti : Env := ⟨some "2", some "0", some "0"⟩

/-- A two-device environment with `DEVICE_ID` unset. -/
def envMultiNoDev : Env := ⟨some "2", none, some "0"⟩

/-- Sample framework return values: rank 3, group size 8, dataset size 7. -/
def fw0 : Framework := ⟨3, 8, 7⟩

/-- Sample `DataConfig` instance. -/
def dc0 : DataConfig := ⟨0⟩

/-- Sample `ModelConfig` instance. -/
def mc0 : ModelConfig := ⟨⟩

/-- Sample `TrainConfig` instance with checkpoint saving enabled. -/
def tc0 : TrainConfig := ⟨1000, 1, true, "deepfm", 1000, 10⟩

/-- Claim C1 counterexample: with `RANK_SIZE=2` and the unrecognized
`--device_target TPU`, the script prints the error message but terminates
via bare `exit()`, whose process exit status is 0, not nonzero. -/
theorem claim_C1_counterexample :
    rankSizeOfEnv envMulti = Except.ok 2
    ∧ (parse_known_args cmdTPU).device_target = "TPU"
    ∧ Effect.printMsg (unsupportedMsg "TPU") ∈
        (runScript cmdTPU envMulti fw0 dc0 mc0 tc0).trace
    ∧ (runScript cmdTPU envMulti fw0 dc0 mc0 tc0).outcome = Outcome.exited 0 :=
  ⟨rfl, rfl, by decide, rfl⟩

/-- Claim C1 (amended): for every run with `RANK_SIZE > 1` in which
`--device_target` is not a recognized value (not Ascend, GPU, or CPU),
the script prints an error message and terminates the process — with exit
status zero, since `exit()` is called with no argument. -/
theorem claim_C1_unsupported_exits_zero (c : Cmdline) (env : Env) (fw : Framework)
    (dc : DataConfig) (mc : ModelConfig) (tc : TrainConfig) (n : Int)
    (hr : rankSizeOfEnv env = Except.ok n) (h1 : n > 1)
    (hA : (parse_known_args c).device_target ≠ "Ascend")
    (hG : (parse_known_args c).device_target ≠ "GPU")
    (_hC : (parse_known_args c).device_target ≠ "CPU") :
    Effect.printMsg (unsupportedMsg (parse_known_args c).device_target) ∈
        (runScript c env fw dc mc tc).trace
    ∧ (runScript c env fw dc mc tc).outcome = Outcome.exited 0 := by
  simp [runScript, hr, setupBranch, h1, hA, hG, preTrace]

/-- Claim C1 witness: the amended claim instantiated at
`--device_target TPU` with `RANK_SIZE=2`. -/
theorem claim_C1_witness :
    Effect.printMsg (unsupportedMsg "TPU") ∈
        (runScript cmdTPU envMulti fw0 dc0 mc0 tc0).trace
    ∧ (runScript cmdTPU envMulti fw0 dc0 mc0 tc0).outcome = Outcome.exited 0 :=
  claim_C1_unsupported_exits_zero cmdTPU envMulti fw0 dc0 mc0 tc0 2 rfl (by decide)
    (by decide) (by decide) (by decide)

/-- Claim C2 counterexample: with `RANK_SIZE=2` and the documented target
`CPU`, the unsupported-device-target termination branch is taken (error
printed, process exits) and no device/context initialization occurs, so
`CPU` is not accepted in the multi-device branch. -/
theorem claim_C2_counterexample :
    rankSizeOfEnv envMulti = Except.ok 2
    ∧ (parse_known_args cmdCPU).device_target = "CPU"
    ∧ Effect.printMsg (unsupportedMsg "CPU") ∈
        (runScript cmdCPU envMulti fw0 dc0 mc0 tc0).trace
    ∧ (runScript cmdCPU envMulti fw0 dc0 mc0 tc0).outcome = Outcome.exited 0
    ∧ (runScript cmdCPU envMulti fw0 dc0 mc0 tc0).trace.any isSetContext = false :=
  ⟨rfl, rfl, by decide, rfl, by decide⟩

/-- Claim C2 (amended): for every run with `RANK_SIZE > 1`, only `GPU`
(unconditionally) and `Ascend` (once `DEVICE_ID` reads as an int) proceed
to device/context initialization; the termination branch is taken exactly
for device targets outside that pair — including the documented `CPU`. -/
theorem claim_C2_accepted_targets (c : Cmdline) (env : Env) (fw : Framework)
    (dc : DataConfig) (mc : ModelConfig) (tc : TrainConfig) (n : Int)
    (hr : rankSizeOfEnv env = Except.ok n) (h1 : n > 1) :
    ((parse_known_args c).device_target = "GPU" →
        (runScript c env fw dc mc tc).trace.any isSetContext = true
        ∧ (runScript c env fw dc mc tc).outcome ≠ Outcome.exited 0)
    ∧ ((parse_known_args c).device_target = "Ascend" →
        exceptOk (intOfOpt env.DEVICE_ID) = true →
        (runScript c env fw dc mc tc).trace.any isSetContext = true
        ∧ (runScript c env fw dc mc tc).outcome ≠ Outcome.exited 0)
    ∧ ((parse_known_args c).device_target ≠ "Ascend" →
        (parse_known_args c).device_target ≠ "GPU" →
        Effect.printMsg (unsupportedMsg (parse_known_args c).device_target) ∈
          (runScript c env fw dc mc tc).trace
        ∧ (runScript c env fw dc mc tc).outcome = Outcome.exited 0) := by
  by_cases hA : (parse_known_args c).device_target = "Ascend"
  · cases hd : intOfOpt env.DEVICE_ID with
    | error e =>
      simp [runScript, hr, setupBranch, h1, hA, hd, preTrace, exceptOk,
            isSetContext]
    | ok d =>
      cases hrid : intOfOpt env.RANK_ID with
      | error e2 =>
        simp [runScript, hr, setupBranch, h1, hA, hd, hrid, preTrace, exceptOk,
              isSetContext]
      | ok r =>
        simp [runScript, hr, setupBranch, h1, hA, hd, hrid, preTrace, exceptOk,
              isSetContext]
  · by_cases hG : (parse_known_args c).device_target = "GPU"
    · simp [runScript, hr, setupBranch, h1, hA, hG, preTrace, isSetContext]
    · simp [runScript, hr, setupBranch, h1, hA, hG, preTrace, isSetContext]

/-- Claim C2 witness: a multi-device GPU run reaches `set_context` and
does not take the termination branch. -/
theorem claim_C2_witness :
    (runScript cmdGPU envMulti fw0 dc0 mc0 tc0).trace.any isSetContext = true
    ∧ (runScript cmdGPU envMulti fw0 dc0 mc0 tc0).outcome ≠ Outcome.exited 0 :=
  (claim_C2_accepted_targets cmdGPU envMulti fw0 dc0 mc0 tc0 2 rfl (by decide)).1 rfl

/-- Claim C3 counterexample: in a completed multi-device run with
checkpoint saving enabled, `train_config.ckpt_file_name_prefix` is
modified after construction (the rank is appended), so the config objects
are not read-only after startup. -/
theorem claim_C3_counterexample :
    tc0.ckpt_file_name_pfx = "deepfm"
    ∧ (runScript cmdNone envMulti fw0 dc0 mc0 tc0).outcome = Outcome.completed
    ∧ (runScript cmdNone envMulti fw0 dc0 mc0 tc0).finalTC.ckpt_file_name_pfx =
        "deepfm3"
    ∧ (runScript cmdNone envMulti fw0 dc0 mc0 tc0).finalTC ≠ tc0 := by
  decide

/-- Claim C3 (amended): the three config objects are each constructed
exactly once whenever the script reaches `__main__`; `DataConfig` and
`ModelConfig` are never modified afterwards, and the only later
modification of `TrainConfig` is that `ckpt_file_name_prefix` gets
`str(get_rank())` appended — which never happens when checkpoint saving
is disabled or the run is single-device. -/
theorem claim_C3_config_mutation (c : Cmdline) (env : Env) (fw : Framework)
    (dc : DataConfig) (mc : ModelConfig) (tc : TrainConfig) (n : Int)
    (hr : rankSizeOfEnv env = Except.ok n) :
    ((runScript c env fw dc mc tc).trace.count Effect.constructDataConfig = 1
      ∧ (runScript c env fw dc mc tc).trace.count Effect.constructModelConfig = 1
      ∧ (runScript c env fw dc mc tc).trace.count Effect.constructTrainConfig = 1)
    ∧ (runScript c env fw dc mc tc).finalDC = dc
    ∧ (runScript c env fw dc mc tc).finalMC = mc
    ∧ ((runScript c env fw dc mc tc).finalTC = tc
        ∨ (runScript c env fw dc mc tc).finalTC =
            { tc with ckpt_file_name_pfx := tc.ckpt_file_name_pfx ++ toString fw.rank })
    ∧ (tc.save_checkpoint = false → (runScript c env fw dc mc tc).finalTC = tc)
    ∧ (¬ n > 1 → (runScript c env fw dc mc tc).finalTC = tc) := by
  by_cases h1 : n > 1
  · by_cases hA : (parse_known_args c).device_target = "Ascend"
    · cases hd : intOfOpt env.DEVICE_ID with
      | error e =>
        simp [runScript, hr, setupBranch, h1, hA, hd, preTrace, List.count_cons,
              List.count_append, beq_iff_eq]
      | ok d =>
        cases hrid : intOfOpt env.RANK_ID with
        | error e2 =>
          simp [runScript, hr, setupBranch, h1, hA, hd, hrid, preTrace,
                List.count_cons, List.count_append, beq_iff_eq]
        | ok r =>
          have hn0 : n ≠ 0 := by omega
          cases hde : (parse_known_args c).do_eval <;>
            cases hsc : tc.save_checkpoint <;>
              simp [runScript, hr, setupBranch, h1, hA, hd, hrid, hde, hsc, hn0,
                    preTrace, mainTrace, mainCallbacks, tcAfter, pyTruthy,
                    List.count_cons, List.count_append, beq_iff_eq]
    · by_cases hG : (parse_known_args c).device_target = "GPU"
      · have hn0 : n ≠ 0 := by omega
        cases hde : (parse_known_args c).do_eval <;>
          cases hsc : tc.save_checkpoint <;>
            simp [runScript, hr, setupBranch, h1, hA, hG, hde, hsc, hn0,
                  preTrace, mainTrace, mainCallbacks, tcAfter, pyTruthy,
                  List.count_cons, List.count_append, beq_iff_eq]
      · simp [runScript, hr, setupBranch, h1, hA, hG, preTrace, List.count_cons,
              List.count_append, beq_iff_eq]
  · cases hd : intOfOpt env.DEVICE_ID with
    | error e =>
      simp [runScript, hr, setupBranch, h1, hd, preTrace, List.count_cons,
            List.count_append, beq_iff_eq]
    | ok d =>
      cases hde : (parse_known_args c).do_eval <;>
        cases hsc : tc.save_checkpoint <;>
          simp [runScript, hr, setupBranch, h1, hd, hde, hsc, preTrace, mainTrace,
                mainCallbacks, tcAfter, pyTruthy, List.count_cons,
                List.count_append, beq_iff_eq]

/-- Claim C3 witness: the amended claim instantiated at a concrete
multi-device run. -/
theorem claim_C3_witness :
    (runScript cmdNone envMulti fw0 dc0 mc0 tc0).finalTC = tc0
    ∨ (runScript cmdNone envMulti fw0 dc0 mc0 tc0).finalTC =
        { tc0 with ckpt_file_name_pfx := tc0.ckpt_file_name_pfx ++ toString fw0.rank } :=
  (claim_C3_config_mutation cmdNone envMulti fw0 dc0 mc0 tc0 2 rfl).2.2.2.1

/-- Claim C4 counterexample: in a single-device GPU run with checkpoint
saving enabled, the checkpoint callback gets cadence 7 (the dataset step
count) instead of the configured `save_checkpoint_steps = 1000`, so the
cadence is not taken from `TrainConfig` for every device target. -/
theorem claim_C4_counterexample :
    tc0.save_checkpoint = true
    ∧ tc0.save_checkpoint_steps = 1000
    ∧ Callback.modelCheckpoint "deepfm" none 7 10 ∈
        (runScript cmdGPU envSingle fw0 dc0 mc0 tc0).callbacks
    ∧ Callback.modelCheckpoint "deepfm" none 1000 10 ∉
        (runScript cmdGPU envSingle fw0 dc0 mc0 tc0).callbacks := by
  decide

/-- Claim C4 (amended): whenever checkpoint saving is enabled and the run
completes, a checkpoint callback is registered whose directory is
`--ckpt_path` and whose retention count is `TrainConfig`'s
`keep_checkpoint_max` for every device target, while the save cadence is
`TrainConfig`'s `save_checkpoint_steps` only for non-GPU targets; for GPU
it is the training dataset's step count (one save per epoch). -/
theorem claim_C4_checkpoint_config (c : Cmdline) (env : Env) (fw : Framework)
    (dc : DataConfig) (mc : ModelConfig) (tc : TrainConfig) (n : Int)
    (hr : rankSizeOfEnv env = Except.ok n)
    (hc : (runScript c env fw dc mc tc).outcome = Outcome.completed)
    (hsv : tc.save_checkpoint = true) :
    Callback.modelCheckpoint
        (if n > 1 then tc.ckpt_file_name_pfx ++ toString fw.rank
         else tc.ckpt_file_name_pfx)
        (parse_known_args c).ckpt_path
        (if (parse_known_args c).device_target = "GPU" then fw.steps_size
         else tc.save_checkpoint_steps)
        tc.keep_checkpoint_max
      ∈ (runScript c env fw dc mc tc).callbacks := by
  by_cases h1 : n > 1
  · by_cases hA : (parse_known_args c).device_target = "Ascend"
    · cases hd : intOfOpt env.DEVICE_ID with
      | error e => simp [runScript, hr, setupBranch, h1, hA, hd] at hc
      | ok d =>
        cases hrid : intOfOpt env.RANK_ID with
        | error e2 => simp [runScript, hr, setupBranch, h1, hA, hd, hrid] at hc
        | ok r =>
          have hn0 : n ≠ 0 := by omega
          simp [runScript, hr, setupBranch, h1, hA, hd, hrid, hsv, hn0,
                mainCallbacks, tcAfter, pyTruthy]
    · by_cases hG : (parse_known_args c).device_target = "GPU"
      · have hn0 : n ≠ 0 := by omega
        simp [runScript, hr, setupBranch, h1, hA, hG, hsv, hn0, mainCallbacks,
              tcAfter, pyTruthy]
      · simp [runScript, hr, setupBranch, h1, hA, hG] at hc
  · cases hd : intOfOpt env.DEVICE_ID with
    | error e => simp [runScript, hr, setupBranch, h1, hd] at hc
    | ok d =>
      simp [runScript, hr, setupBranch, h1, hd, hsv, mainCallbacks, tcAfter,
            pyTruthy]

/-- Claim C4 witness: the amended claim instantiated at a concrete
multi-device GPU run. -/
theorem claim_C4_witness :
    Callback.modelCheckpoint
        (if (2 : Int) > 1 then tc0.ckpt_file_name_pfx ++ toString fw0.rank
         else tc0.ckpt_file_name_pfx)
        (parse_known_args cmdGPU).ckpt_path
        (if (parse_known_args cmdGPU).device_target = "GPU" then fw0.steps_size
         else tc0.save_checkpoint_steps)
        tc0.keep_checkpoint_max
      ∈ (runScript cmdGPU envMulti fw0 dc0 mc0 tc0).callbacks :=
  claim_C4_checkpoint_config cmdGPU envMulti fw0 dc0 mc0 tc0 2 rfl rfl rfl

/-- Claim C5 counterexample: with `RANK_SIZE=2` and the supported default
target `Ascend` but `DEVICE_ID` unset, the run raises `TypeError` before
any auto-parallel configuration, so "RANK_SIZE parses to a value greater
than 1 with a supported device target" does not suffice for the
data-parallel context to be configured. -/
theorem claim_C5_counterexample :
    rankSizeOfEnv envMultiNoDev = Except.ok 2
    ∧ (parse_known_args cmdNone).device_target = "Ascend"
    ∧ (runScript cmdNone envMultiNoDev fw0 dc0 mc0 tc0).trace.any
        isDataParallelMirror = false
    ∧ (runScript cmdNone envMultiNoDev fw0 dc0 mc0 tc0).outcome =
        Outcome.pyError PyError.typeError :=
  ⟨rfl, rfl, by decide, rfl⟩

/-- Claim C5 (amended): the `DATA_PARALLEL` + `mirror_mean=True`
auto-parallel context is configured iff `RANK_SIZE` parses to a value
greater than 1 and the target is `GPU`, or `Ascend` with a readable
`DEVICE_ID`; when `RANK_SIZE` is unset or at most 1, no auto-parallel
context is set and any training-dataset creation passes
`rank_size = None` and `rank_id = None`. -/
theorem claim_C5_data_parallel_iff (c : Cmdline) (env : Env) (fw : Framework)
    (dc : DataConfig) (mc : ModelConfig) (tc : TrainConfig) (n : Int)
    (hr : rankSizeOfEnv env = Except.ok n) :
    ((runScript c env fw dc mc tc).trace.any isDataParallelMirror = true ↔
      (n > 1 ∧ ((parse_known_args c).device_target = "GPU"
        ∨ ((parse_known_args c).device_target = "Ascend"
            ∧ exceptOk (intOfOpt env.DEVICE_ID) = true))))
    ∧ (¬ n > 1 →
        (runScript c env fw dc mc tc).trace.any isAutoParallelSet = false
        ∧ ∀ e ∈ (runScript c env fw dc mc tc).trace,
            ∀ p, createTrainRanks e = some p → p = (none, none)) := by
  by_cases h1 : n > 1
  · by_cases hA : (parse_known_args c).device_target = "Ascend"
    · cases hd : intOfOpt env.DEVICE_ID with
      | error e =>
        simp [runScript, hr, setupBranch, h1, hA, hd, preTrace, exceptOk,
              isDataParallelMirror, isAutoParallelSet, createTrainRanks]
      | ok d =>
        cases hrid : intOfOpt env.RANK_ID with
        | error e2 =>
          simp [runScript, hr, setupBranch, h1, hA, hd, hrid, preTrace, exceptOk,
                isDataParallelMirror, isAutoParallelSet, createTrainRanks]
        | ok r =>
          cases hde : (parse_known_args c).do_eval <;>
            simp [runScript, hr, setupBranch, h1, hA, hd, hrid, hde, preTrace,
                  mainTrace, exceptOk, isDataParallelMirror, isAutoParallelSet,
                  createTrainRanks]
    · by_cases hG : (parse_known_args c).device_target = "GPU"
      · cases hde : (parse_known_args c).do_eval <;>
          simp [runScript, hr, setupBranch, h1, hA, hG, hde, preTrace, mainTrace,
                exceptOk, isDataParallelMirror, isAutoParallelSet,
                createTrainRanks]
      · simp [runScript, hr, setupBranch, h1, hA, hG, preTrace, exceptOk,
              isDataParallelMirror, isAutoParallelSet, createTrainRanks]
  · cases hd : intOfOpt env.DEVICE_ID with
    | error e =>
      simp [runScript, hr, setupBranch, h1, hd, preTrace, exceptOk,
            isDataParallelMirror, isAutoParallelSet, createTrainRanks]
    | ok d =>
      cases hde : (parse_known_args c).do_eval <;>
        simp [runScript, hr, setupBranch, h1, hd, hde, preTrace, mainTrace,
              exceptOk, isDataParallelMirror, isAutoParallelSet, createTrainRanks]

/-- Claim C5 witness: the amended claim instantiated at a concrete
single-device run (`RANK_SIZE` unset). -/
theorem claim_C5_witness :
    (runScript cmdNone envSingle fw0 dc0 mc0 tc0).trace.any isAutoParallelSet = false
    ∧ ∀ e ∈ (runScript cmdNone envSingle fw0 dc0 mc0 tc0).trace,
        ∀ p, createTrainRanks e = some p → p = (none, none) :=
  (claim_C5_data_parallel_iff cmdNone envSingle fw0 dc0 mc0 tc0 1 rfl).2 (by decide)

/-- Claim C6: with every flag absent, argument parsing yields
dataset_path None, ckpt_path None, eval_file_name "./auc.log",
loss_file_name "./loss.log", do_eval True, device_target "Ascend". -/
theorem claim_C6_parse_defaults :
    parse_known_args cmdNone =
      ⟨none, none, "./auc.log", "./loss.log", true, "Ascend"⟩ := rfl

/-- Claim C7: in every run that reaches training, the loss-logging
callback for `--loss_file_name` is registered, and the evaluation dataset
is created and the AUC evaluation callback for `--eval_file_name` is
registered exactly when `do_eval` is truthy. -/
theorem claim_C7_callbacks (c : Cmdline) (env : Env) (fw : Framework)
    (dc : DataConfig) (mc : ModelConfig) (tc : TrainConfig)
    (hc : (runScript c env fw dc mc tc).outcome = Outcome.completed) :
    Callback.lossCallBack (parse_known_args c).loss_file_name ∈
        (runScript c env fw dc mc tc).callbacks
    ∧ (Callback.evalCallBack (parse_known_args c).eval_file_name ∈
          (runScript c env fw dc mc tc).callbacks
        ↔ (parse_known_args c).do_eval = true)
    ∧ ((runScript c env fw dc mc tc).trace.any isCreateEvalDataset = true
        ↔ (parse_known_args c).do_eval = true) := by
  cases hrk : rankSizeOfEnv env with
  | error e => simp [runScript, hrk] at hc
  | ok n =>
    by_cases h1 : n > 1
    · by_cases hA : (parse_known_args c).device_target = "Ascend"
      · cases hd : intOfOpt env.DEVICE_ID with
        | error e => simp [runScript, hrk, setupBranch, h1, hA, hd] at hc
        | ok d =>
          cases hrid : intOfOpt env.RANK_ID with
          | error e2 => simp [runScript, hrk, setupBranch, h1, hA, hd, hrid] at hc
          | ok r =>
            cases hde : (parse_known_args c).do_eval <;>
              cases hsc : tc.save_checkpoint <;>
                simp [runScript, hrk, setupBranch, h1, hA, hd, hrid, hde, hsc,
                      preTrace, mainTrace, mainCallbacks, tcAfter,
                      isCreateEvalDataset]
      · by_cases hG : (parse_known_args c).device_target = "GPU"
        · cases hde : (parse_known_args c).do_eval <;>
            cases hsc : tc.save_checkpoint <;>
              simp [runScript, hrk, setupBranch, h1, hA, hG, hde, hsc,
                    preTrace, mainTrace, mainCallbacks, tcAfter,
                    isCreateEvalDataset]
        · simp [runScript, hrk, setupBranch, h1, hA, hG] at hc
    · cases hd : intOfOpt env.DEVICE_ID with
      | error e => simp [runScript, hrk, setupBranch, h1, hd] at hc
      | ok d =>
        cases hde : (parse_known_args c).do_eval <;>
          cases hsc : tc.save_checkpoint <;>
            simp [runScript, hrk, setupBranch, h1, hd, hde, hsc,
                  preTrace, mainTrace, mainCallbacks, tcAfter,
                  isCreateEvalDataset]

/-- Claim C7 witness: in a default single-device run the loss callback is
registered. -/
theorem claim_C7_witness :
    Callback.lossCallBack (parse_known_args cmdNone).loss_file_name ∈
      (runScript cmdNone envSingle fw0 dc0 mc0 tc0).callbacks :=
  (claim_C7_callbacks cmdNone envSingle fw0 dc0 mc0 tc0 (by decide)).1

/-- Claim C8: a `--do_eval` flag declared with `type=bool` parses any
present value through Python `bool`, so the result is `True` exactly when
the given string is non-empty; in particular "False" and "0" yield
`True`, and only the empty string disables evaluation. -/
theorem claim_C8_do_eval_bool (c : Cmdline) (s : String) (h : c.do_eval = some s) :
    (parse_known_args c).do_eval = true ↔ s ≠ "" := by
  simp [parse_known_args, h, pyBool]

/-- Claim C8 witness: passing `--do_eval False` still yields
`do_eval = True`. -/
theorem claim_C8_witness :
    (parse_known_args ⟨none, none, none, none, some "False", none⟩).do_eval = true :=
  (claim_C8_do_eval_bool ⟨none, none, none, none, some "False", none⟩ "False" rfl).mpr
    (by decide)

/-- Claim C9: in every run with `RANK_SIZE` absent or at most 1, and in
every multi-device Ascend run, an unset `DEVICE_ID` makes
`int(os.getenv('DEVICE_ID'))` raise `TypeError` before any dataset
creation or training occurs. -/
theorem claim_C9_device_id_required (c : Cmdline) (env : Env) (fw : Framework)
    (dc : DataConfig) (mc : ModelConfig) (tc : TrainConfig) (n : Int)
    (hr : rankSizeOfEnv env = Except.ok n)
    (hcase : ¬ n > 1 ∨ (parse_known_args c).device_target = "Ascend")
    (hdev : env.DEVICE_ID = none) :
    (runScript c env fw dc mc tc).outcome = Outcome.pyError PyError.typeError
    ∧ (runScript c env fw dc mc tc).trace.any isCreateTrainDataset = false
    ∧ (runScript c env fw dc mc tc).trace.any isCreateEvalDataset = false
    ∧ (runScript c env fw dc mc tc).trace.any isTrainModel = false := by
  by_cases h1 : n > 1
  · rcases hcase with hno | hA
    · exact absurd h1 hno
    · simp [runScript, hr, setupBranch, h1, hA, hdev, intOfOpt, preTrace,
            isCreateTrainDataset, isCreateEvalDataset, isTrainModel]
  · simp [runScript, hr, setupBranch, h1, hdev, intOfOpt, preTrace,
          isCreateTrainDataset, isCreateEvalDataset, isTrainModel]

/-- Claim C9 witness: a default run with no environment variables set
raises `TypeError`. -/
theorem claim_C9_witness :
    (runScript cmdNone ⟨none, none, none⟩ fw0 dc0 mc0 tc0).outcome =
      Outcome.pyError PyError.typeError :=
  (claim_C9_device_id_required cmdNone ⟨none, none, none⟩ fw0 dc0 mc0 tc0 1 rfl
    (Or.inl (by decide)) rfl).1

/-- Claim C10: whenever the module loads (`RANK_SIZE` absent or parsing
as an int), the first three effects of the run seed random, numpy, and
the dataset engine, each with the constant 1, before any context setup,
dataset construction, or training — uniformly in all CLI arguments,
remaining environment variables, framework values, and configs. -/
theorem claim_C10_seeds_first (c : Cmdline) (env : Env) (fw : Framework)
    (dc : DataConfig) (mc : ModelConfig) (tc : TrainConfig) (n : Int)
    (hr : rankSizeOfEnv env = Except.ok n) :
    (runScript c env fw dc mc tc).trace.take 3 =
      [Effect.seedRandom 1, Effect.seedNumpy 1, Effect.seedDe 1] := by
  simp only [runScript, hr]
  rcases hsb : setupBranch (parse_known_args c) env fw n with ⟨tr, e⟩ | ⟨tr, code⟩ | ⟨tr, rs, ri⟩ <;>
    simp [preTrace, List.take]

/-- Claim C10 witness: a concrete default run starts with the three seed
calls. -/
theorem claim_C10_witness :
    (runScript cmdNone envSingle fw0 dc0 mc0 tc0).trace.take 3 =
      [Effect.seedRandom 1, Effect.seedNumpy 1, Effect.seedDe 1] :=
  claim_C10_seeds_first cmdNone envSingle fw0 dc0 mc0 tc0 1 rfl

end DeepFM
